import Mathlib

/-!
Shallow embedding of the core of `src/cpp/HybridSideFx.hpp` (State Awareness
Manager): the listener registry with its throttle gate, and the network /
internet-quality monitor with its quality classifier, endpoint rotator and
key-value publication step.

Conventions: C++ `double` timestamps, latencies and counters are modelled as
rationals; the listener map `std::map<std::string, ListenerEntry>` is modelled
as an association list (keys are unique because inserts only happen after a
duplicate check); the asynchronous quality tick is modelled as a pure function
returning the new state, the endpoint probed (if any) and the values written
to the key-value store (if any).
-/

namespace SideFx

/-- Modelled from the spec: throttle options carried by a listener config.
The generated `ListenerConfig.hpp` is not under `src/`; the core only reads
`options.throttleMs` (`canFireCallback`, HybridSideFx.hpp:1053-1056). -/
structure ListenerOptions where
  throttleMs : Option ℚ
  deriving DecidableEq

/-- Modelled from the spec: a listener config names which storage it watches
(warm, cold or combined) plus optional options.  The core only tests presence
(`has_value`) of the watch targets (HybridSideFx.hpp:81-82), so their payloads
are modelled as `Unit`. -/
structure ListenerConfig where
  warm : Option Unit
  cold : Option Unit
  combined : Option Unit
  options : Option ListenerOptions
  deriving DecidableEq

/-- Modelled from the spec: `ListenerResult(success, message)` as constructed
throughout the registry operations. -/
structure ListenerResult where
  success : Bool
  message : Option String
  deriving DecidableEq

/-- Internal listener entry (`struct ListenerEntry`, HybridSideFx.hpp:887-899). -/
structure ListenerEntry where
  id : String
  config : ListenerConfig
  createdAt : ℚ
  triggerCount : ℚ
  lastTriggered : Option ℚ
  isPaused : Bool
  nextAllowedTrigger : Option ℚ
  hasPendingEvent : Bool
  deriving DecidableEq

/-- Caller-facing snapshot (`createListenerInfo`, HybridSideFx.hpp:995-1003). -/
structure ListenerInfo where
  id : String
  config : ListenerConfig
  createdAt : ℚ
  triggerCount : ℚ
  lastTriggered : Option ℚ
  isPaused : Bool
  deriving DecidableEq

/-- Registry state: `_listeners` (as an association list, insertion at the
front) and `_maxListeners` (set in the constructor / `configure`). -/
structure SideFxState where
  listeners : List (String × ListenerEntry)
  maxListeners : ℕ
  deriving DecidableEq

/-- Model of `_listeners.find(id)` on the association-list model. -/
def findListener : List (String × ListenerEntry) → String → Option ListenerEntry
  | [], _ => none
  | (k, e) :: rest, id => if k = id then some e else findListener rest id

/-- Model of `_listeners.erase(it)` after a successful find. -/
def eraseListener : List (String × ListenerEntry) → String → List (String × ListenerEntry)
  | [], _ => []
  | (k, e) :: rest, id => if k = id then rest else (k, e) :: eraseListener rest id

/-- In-place mutation of the entry found under `id` (`it->second.field = ...`). -/
def updateListener : List (String × ListenerEntry) → String →
    (ListenerEntry → ListenerEntry) → List (String × ListenerEntry)
  | [], _, _ => []
  | (k, e) :: rest, id, f =>
      (if k = id then (k, f e) else (k, e)) :: updateListener rest id f

/-- Model of `addListener` (HybridSideFx.hpp:66-103): duplicate check, then capacity
check, then config validation, then insertion of a zeroed entry.  `now` stands
for `getCurrentTimestamp()`. -/
def addListener (st : SideFxState) (id : String) (config : ListenerConfig)
    (now : ℚ) : ListenerResult × SideFxState :=
  if (findListener st.listeners id).isSome then
    (⟨false, some ("Listener with ID \x27" ++ id ++ "\x27 already exists")⟩, st)
  else if st.maxListeners ≤ st.listeners.length then
    (⟨false, some "Maximum listener limit reached"⟩, st)
  else if config.warm.isNone && config.cold.isNone && config.combined.isNone then
    (⟨false, some "At least one of warm, cold, or combined must be specified"⟩, st)
  else
    let entry : ListenerEntry :=
      { id := id, config := config, createdAt := now, triggerCount := 0,
        lastTriggered := none, isPaused := false,
        nextAllowedTrigger := none, hasPendingEvent := false }
    (⟨true, none⟩, { st with listeners := (id, entry) :: st.listeners })

/-- Model of `removeListener` (HybridSideFx.hpp:105-120). -/
def removeListener (st : SideFxState) (id : String) :
    ListenerResult × SideFxState :=
  match findListener st.listeners id with
  | none => (⟨false, some ("Listener \x27" ++ id ++ "\x27 not found")⟩, st)
  | some _ => (⟨true, none⟩, { st with listeners := eraseListener st.listeners id })

/-- Model of `removeAllListeners` (HybridSideFx.hpp:122-132): returns the prior size. -/
def removeAllListeners (st : SideFxState) : ℕ × SideFxState :=
  (st.listeners.length, { st with listeners := [] })

/-- Model of `hasListener` (HybridSideFx.hpp:134-137). -/
def hasListener (st : SideFxState) (id : String) : Bool :=
  (findListener st.listeners id).isSome

/-- Model of `createListenerInfo` (HybridSideFx.hpp:995-1003). -/
def createListenerInfo (entry : ListenerEntry) : ListenerInfo :=
  { id := entry.id, config := entry.config, createdAt := entry.createdAt,
    triggerCount := entry.triggerCount, lastTriggered := entry.lastTriggered,
    isPaused := entry.isPaused }

/-- Model of `getListener` (HybridSideFx.hpp:159-166). -/
def getListener (st : SideFxState) (id : String) : Option ListenerInfo :=
  (findListener st.listeners id).map createListenerInfo

/-- Model of `pauseListener` (HybridSideFx.hpp:168-176). -/
def pauseListener (st : SideFxState) (id : String) :
    ListenerResult × SideFxState :=
  match findListener st.listeners id with
  | none => (⟨false, some ("Listener \x27" ++ id ++ "\x27 not found")⟩, st)
  | some _ =>
      (⟨true, none⟩,
       { st with listeners :=
           updateListener st.listeners id (fun e => { e with isPaused := true }) })

/-- Model of `resumeListener` (HybridSideFx.hpp:178-186): only `isPaused` is written. -/
def resumeListener (st : SideFxState) (id : String) :
    ListenerResult × SideFxState :=
  match findListener st.listeners id with
  | none => (⟨false, some ("Listener \x27" ++ id ++ "\x27 not found")⟩, st)
  | some _ =>
      (⟨true, none⟩,
       { st with listeners :=
           updateListener st.listeners id (fun e => { e with isPaused := false }) })

/-- Nested `has_value` reads of `entry.config.options->throttleMs`
(HybridSideFx.hpp:1053-1056). -/
def configThrottleMs (config : ListenerConfig) : Option ℚ :=
  match config.options with
  | some options => options.throttleMs
  | none => none

/-- Trigger-stats update shared by every firing path of `canFireCallback`
(HybridSideFx.hpp:1077-1080). -/
def recordFire (entry : ListenerEntry) (currentTime : ℚ) : ListenerEntry :=
  { entry with triggerCount := entry.triggerCount + 1,
               lastTriggered := some currentTime,
               hasPendingEvent := false }

/-- Model of `canFireCallback` (HybridSideFx.hpp:1046-1083): the throttle gate.
Returns the decision together with the mutated entry (the C++ mutates the
entry in place through a reference). -/
def canFireCallback (entry : ListenerEntry) (currentTime : ℚ) :
    Bool × ListenerEntry :=
  if entry.isPaused then
    (false, entry)
  else
    match configThrottleMs entry.config with
    | some throttleMs =>
      match entry.nextAllowedTrigger with
      | some nextAllowed =>
          if currentTime < nextAllowed then
            (false, { entry with hasPendingEvent := true })
          else
            (true, recordFire
              { entry with nextAllowedTrigger := some (currentTime + throttleMs) }
              currentTime)
      | none =>
          (true, recordFire
            { entry with nextAllowedTrigger := some (currentTime + throttleMs) }
            currentTime)
    | none => (true, recordFire entry currentTime)

/-- Model of `NetworkStatus` enum of the generated bindings. -/
inductive NetworkStatus
  | online
  | offline
  | unknown
  deriving DecidableEq

/-- Model of `ConnectionType` enum of the generated bindings. -/
inductive ConnectionType
  | wifi
  | cellular
  | ethernet
  | bluetooth
  | vpn
  | none
  | unknown
  deriving DecidableEq

/-- Model of `CellularGeneration` enum of the generated bindings (`_2G` .. `_5G`). -/
inductive CellularGeneration
  | gen2
  | gen3
  | gen4
  | gen5
  | unknown
  deriving DecidableEq

/-- Model of `NetworkState` snapshot, field order as in the constructor call at
HybridSideFx.hpp:924-933. -/
structure NetworkState where
  status : NetworkStatus
  type : ConnectionType
  isConnected : Bool
  isInternetReachable : Int
  cellularGeneration : CellularGeneration
  wifiStrength : ℚ
  isConnectionExpensive : Bool
  timestamp : ℚ
  deriving DecidableEq

/-- Internet-quality monitor state: the fields `_lastPingLatencyMs`,
`_internetQuality`, `_internetReachable`, `_useActivePing`,
`_pingEndpointIndex`, `_isCheckingOfflineRecovery`, `_customPingEndpoints`
(HybridSideFx.hpp:936-942). -/
structure QualityState where
  lastPingLatencyMs : ℚ
  internetQuality : String
  internetReachable : Bool
  useActivePing : Bool
  pingEndpointIndex : ℕ
  isCheckingOfflineRecovery : Bool
  customPingEndpoints : List String
  deriving DecidableEq

/-- Field initializers at HybridSideFx.hpp:936-942. -/
def initialQualityState : QualityState :=
  { lastPingLatencyMs := -1, internetQuality := "unknown",
    internetReachable := false, useActivePing := false,
    pingEndpointIndex := 0, isCheckingOfflineRecovery := false,
    customPingEndpoints := [] }

/-- Model of `latencyToQuality` (HybridSideFx.hpp:1480-1486). -/
def latencyToQuality (latencyMs : ℚ) : String :=
  if latencyMs < 0 then "unknown"
  else if latencyMs < 100 then "excellent"
  else if latencyMs < 300 then "good"
  else if latencyMs < 1000 then "fair"
  else "poor"

/-- Severity rank of the classifier outputs, used to state monotonicity:
better quality gets a smaller rank. -/
def qualityRank : String → ℕ
  | "excellent" => 0
  | "good" => 1
  | "fair" => 2
  | "poor" => 3
  | _ => 4

/-- Model of `reportNetworkLatency` (HybridSideFx.hpp:823-846), state part only (the
key-value publication it triggers is `updateInternetQualityWarmKeys`). -/
def reportNetworkLatency (q : QualityState) (latencyMs : ℚ) : QualityState :=
  if latencyMs < 0 then q
  else
    { q with lastPingLatencyMs := latencyMs,
             internetQuality := latencyToQuality latencyMs,
             internetReachable := true,
             isCheckingOfflineRecovery := false }

/-- Model of `reportNetworkFailure` (HybridSideFx.hpp:848-863), state part only. -/
def reportNetworkFailure (q : QualityState) : QualityState :=
  { q with internetReachable := false,
           internetQuality := "offline",
           lastPingLatencyMs := -1,
           isCheckingOfflineRecovery := true }

/-- Model of `setPingEndpoints` (HybridSideFx.hpp:865-883): empty input resets to the
defaults; the rotation index is reset to 0 in both branches. -/
def setPingEndpoints (q : QualityState) (endpoints : List String) : QualityState :=
  if endpoints.isEmpty then
    { q with customPingEndpoints := [], pingEndpointIndex := 0 }
  else
    { q with customPingEndpoints := endpoints, pingEndpointIndex := 0 }

/-- Default probe endpoints (HybridSideFx.hpp:1365-1370). -/
def defaultPingEndpoints : List String :=
  ["https://www.google.com/generate_204",
   "https://www.apple.com/library/test/success.html",
   "https://clients3.google.com/generate_204",
   "https://captive.apple.com/hotspot-detect.html"]

/-- Model of `getPingEndpoints` (HybridSideFx.hpp:1358-1371). -/
def getPingEndpoints (q : QualityState) : List String :=
  if !q.customPingEndpoints.isEmpty then q.customPingEndpoints
  else defaultPingEndpoints

/-- Round-robin endpoint selection inside the probe branch of
`checkInternetQualityAsync` (HybridSideFx.hpp:1417-1419):
`endpoints[_pingEndpointIndex % endpoints.size()]` then the index increments. -/
def selectProbeEndpoint (q : QualityState) : String × QualityState :=
  let endpoints := getPingEndpoints q
  (endpoints.getD (q.pingEndpointIndex % endpoints.length) "",
   { q with pingEndpointIndex := q.pingEndpointIndex + 1 })

/-- Values written to the `sam-network` key-value instance by
`updateInternetQualityWarmKeys` (HybridSideFx.hpp:1491-1533). -/
structure InternetPublication where
  internetQuality : String
  internetLatencyMs : ℚ
  networkQuality : String
  internetReachable : Bool
  internetState : String
  deriving DecidableEq

/-- Model of `calculateCombinedQuality` (HybridSideFx.hpp:1538-1577). -/
def calculateCombinedQuality (q : QualityState) (net : NetworkState) : String :=
  if net.status = NetworkStatus.offline ∨ net.type = ConnectionType.none ∨
      q.internetQuality = "offline" then
    "offline"
  else if q.internetQuality = "unknown" ∨ q.lastPingLatencyMs < 0 then
    if net.type = ConnectionType.wifi ∨ net.type = ConnectionType.ethernet then
      "strong"
    else if net.type = ConnectionType.cellular then
      if net.cellularGeneration = CellularGeneration.gen5 ∨
          net.cellularGeneration = CellularGeneration.gen4 then "strong"
      else if net.cellularGeneration = CellularGeneration.gen3 then "medium"
      else "weak"
    else "unknown"
  else if q.internetQuality = "excellent" then "strong"
  else if q.internetQuality = "good" then "strong"
  else if q.internetQuality = "fair" then "medium"
  else if q.internetQuality = "poor" then "weak"
  else "unknown"

/-- Model of `updateInternetQualityWarmKeys` (HybridSideFx.hpp:1491-1533), modelled as
the record of values it writes to the key-value store. -/
def updateInternetQualityWarmKeys (q : QualityState) (net : NetworkState) :
    InternetPublication :=
  let combinedQuality := calculateCombinedQuality q net
  let internetState :=
    if q.internetReachable then
      if q.internetQuality = "poor" ∨ q.internetQuality = "fair" ∨
          combinedQuality = "weak" then "online-weak"
      else "online"
    else "offline"
  { internetQuality := q.internetQuality,
    internetLatencyMs := q.lastPingLatencyMs,
    networkQuality := combinedQuality,
    internetReachable := q.internetReachable,
    internetState := internetState }

/-- Outcome of the asynchronous HTTP probe issued by the tick: the completion
handler at HybridSideFx.hpp:1432-1470 distinguishes `error != nil` (failure)
from a measured elapsed time (success). -/
inductive ProbeResult
  | failure
  | success (latencyMs : ℚ)
  deriving DecidableEq

/-- Result of one evaluation tick: the new monitor state, the endpoint probed
(if a probe was issued) and the publication performed synchronously (if any). -/
structure TickResult where
  state : QualityState
  probe : Option String
  published : Option InternetPublication
  deriving DecidableEq

/-- Synchronous part of `checkInternetQualityAsync` (HybridSideFx.hpp:1384-1474):
the disconnect short-circuit, the passive-mode steady state, and otherwise
endpoint selection for one probe (whose completion is `probeComplete`). -/
def checkInternetQualityAsync (q : QualityState) (net : NetworkState) :
    TickResult :=
  if !net.isConnected then
    let q2 : QualityState :=
      { q with lastPingLatencyMs := -1, internetQuality := "offline",
               internetReachable := false }
    { state := q2, probe := none,
      published := some (updateInternetQualityWarmKeys q2 net) }
  else
    let shouldCheckForRecovery := !q.internetReachable || q.isCheckingOfflineRecovery
    if !q.useActivePing && !shouldCheckForRecovery then
      if q.lastPingLatencyMs < 0 then
        let q2 : QualityState := { q with internetQuality := "unknown" }
        { state := q2, probe := none,
          published := some (updateInternetQualityWarmKeys q2 net) }
      else
        { state := q, probe := none, published := none }
    else
      let probe := selectProbeEndpoint q
      { state := probe.2, probe := some probe.1, published := none }

/-- Completion handler of the probe (HybridSideFx.hpp:1432-1470), state part:
`_isCheckingOfflineRecovery` becomes `!reachable`. -/
def probeComplete (q : QualityState) (r : ProbeResult) : QualityState :=
  match r with
  | ProbeResult.failure =>
      { q with lastPingLatencyMs := -1, internetQuality := "offline",
               internetReachable := false, isCheckingOfflineRecovery := true }
  | ProbeResult.success latencyMs =>
      { q with lastPingLatencyMs := latencyMs,
               internetQuality := latencyToQuality latencyMs,
               internetReachable := true, isCheckingOfflineRecovery := false }

/-- Events that drive the monitor state, for stating reachability invariants:
the externally reported samples, the periodic tick (with the network snapshot
current at that moment) and the completion of an issued probe. -/
inductive MonitorEvent
  | reportLatency (latencyMs : ℚ)
  | reportFailure
  | tick (net : NetworkState)
  | probeDone (r : ProbeResult)

/-- One monitor transition. -/
def monitorStep (q : QualityState) (ev : MonitorEvent) : QualityState :=
  match ev with
  | MonitorEvent.reportLatency l => reportNetworkLatency q l
  | MonitorEvent.reportFailure => reportNetworkFailure q
  | MonitorEvent.tick net => (checkInternetQualityAsync q net).state
  | MonitorEvent.probeDone r => probeComplete q r

/-- Monitor state after a sequence of events from the initial state. -/
def runMonitor (events : List MonitorEvent) : QualityState :=
  events.foldl monitorStep initialQualityState

/-- Iterated probe selection, to state concrete rotation sequences. -/
def selectRun : ℕ → QualityState → List String
  | 0, _ => []
  | Nat.succ n, q =>
      (selectProbeEndpoint q).1 :: selectRun n (selectProbeEndpoint q).2

/-- Sample network snapshot with `isConnected = false`, for witnesses. -/
def disconnectedNet : NetworkState :=
  { status := NetworkStatus.unknown, type := ConnectionType.none,
    isConnected := false, isInternetReachable := 0,
    cellularGeneration := CellularGeneration.unknown, wifiStrength := -1,
    isConnectionExpensive := false, timestamp := 0 }

/-- The classifier never returns the label "offline"; that label only enters
the monitor state through failure paths. -/
theorem latencyToQuality_ne_offline (l : ℚ) : latencyToQuality l ≠ "offline" := by
  unfold latencyToQuality
  split_ifs <;> decide

/-- Invariant relating the published quality label to the reachability flag. -/
def monitorInvariant (q : QualityState) : Prop :=
  q.internetQuality = "offline" → q.internetReachable = false

/-- The state produced by a tick preserves `monitorInvariant`. -/
theorem tick_state_invariant (q : QualityState) (net : NetworkState)
    (ih : monitorInvariant q) :
    monitorInvariant (checkInternetQualityAsync q net).state := by
  by_cases hnc : net.isConnected = true
  · by_cases hb : q.useActivePing = false ∧ q.internetReachable = true ∧
        q.isCheckingOfflineRecovery = false
    · by_cases hl : q.lastPingLatencyMs < 0
      · have hst : (checkInternetQualityAsync q net).state =
            { q with internetQuality := "unknown" } := by
          simp [checkInternetQualityAsync, hnc, hb.1, hb.2.1, hb.2.2, hl]
        rw [hst]
        intro hq
        simp at hq
      · have hst : (checkInternetQualityAsync q net).state = q := by
          simp [checkInternetQualityAsync, hnc, hb.1, hb.2.1, hb.2.2, hl]
        rw [hst]
        exact ih
    · have hst : (checkInternetQualityAsync q net).state =
          { q with pingEndpointIndex := q.pingEndpointIndex + 1 } := by
        simp [checkInternetQualityAsync, selectProbeEndpoint, hnc, hb]
      rw [hst]
      intro hq
      exact ih hq
  · have hnc2 : net.isConnected = false := by
      cases h : net.isConnected
      · rfl
      · exact absurd h hnc
    have hst : (checkInternetQualityAsync q net).state =
        { q with lastPingLatencyMs := -1, internetQuality := "offline",
                 internetReachable := false } := by
      simp [checkInternetQualityAsync, hnc2]
    rw [hst]
    intro _
    rfl

/-- Every monitor transition preserves `monitorInvariant`. -/
theorem monitorStep_invariant (q : QualityState) (ev : MonitorEvent)
    (ih : monitorInvariant q) : monitorInvariant (monitorStep q ev) := by
  cases ev with
  | reportLatency l =>
      show monitorInvariant (reportNetworkLatency q l)
      unfold reportNetworkLatency
      split_ifs with hl
      · exact ih
      · intro hq
        exact absurd hq (latencyToQuality_ne_offline l)
  | reportFailure =>
      show monitorInvariant (reportNetworkFailure q)
      intro _
      rfl
  | tick net =>
      exact tick_state_invariant q net ih
  | probeDone r =>
      cases r with
      | failure =>
          show monitorInvariant (probeComplete q ProbeResult.failure)
          intro _
          rfl
      | success l =>
          show monitorInvariant (probeComplete q (ProbeResult.success l))
          intro hq
          exact absurd hq (latencyToQuality_ne_offline l)

/-- The invariant holds along any event fold from an invariant state. -/
theorem foldl_monitorStep_invariant (events : List MonitorEvent) :
    ∀ q : QualityState, monitorInvariant q →
      monitorInvariant (events.foldl monitorStep q) := by
  induction events with
  | nil => exact fun q h => h
  | cons ev rest ih =>
      exact fun q h => ih (monitorStep q ev) (monitorStep_invariant q ev h)

/-- C3: in every monitor state reachable from the initial state via
`reportNetworkLatency`, `reportNetworkFailure`, the periodic evaluation tick
(with its disconnect short-circuit) and probe completion, the quality label
"offline" implies `internetReachable = false`. -/
theorem monitor_offline_implies_unreachable (events : List MonitorEvent)
    (h : (runMonitor events).internetQuality = "offline") :
    (runMonitor events).internetReachable = false :=
  foldl_monitorStep_invariant events initialQualityState
    (fun hq => absurd hq (by decide)) h

/-- Witness for C3: after a reported failure the state is offline and the
theorem yields unreachability there. -/
theorem monitor_offline_implies_unreachable_witness :
    (runMonitor [MonitorEvent.reportFailure]).internetReachable = false :=
  monitor_offline_implies_unreachable [MonitorEvent.reportFailure] (by decide)

/-- C4: the quality classifier is total on rational latencies, has exactly
the documented thresholds, and is monotone (in severity rank) on non-negative
inputs. -/
theorem latencyToQuality_spec :
    (∀ l : ℚ, l < 0 → latencyToQuality l = "unknown") ∧
    (∀ l : ℚ, 0 ≤ l → l < 100 → latencyToQuality l = "excellent") ∧
    (∀ l : ℚ, 100 ≤ l → l < 300 → latencyToQuality l = "good") ∧
    (∀ l : ℚ, 300 ≤ l → l < 1000 → latencyToQuality l = "fair") ∧
    (∀ l : ℚ, 1000 ≤ l → latencyToQuality l = "poor") ∧
    (∀ l1 l2 : ℚ, 0 ≤ l1 → l1 ≤ l2 →
      qualityRank (latencyToQuality l1) ≤ qualityRank (latencyToQuality l2)) := by
  refine ⟨?_, ?_, ?_, ?_, ?_, ?_⟩
  · intro l h
    unfold latencyToQuality
    rw [if_pos h]
  · intro l h0 h1
    unfold latencyToQuality
    rw [if_neg (by linarith), if_pos h1]
  · intro l h0 h1
    unfold latencyToQuality
    rw [if_neg (by linarith), if_neg (by linarith), if_pos h1]
  · intro l h0 h1
    unfold latencyToQuality
    rw [if_neg (by linarith), if_neg (by linarith), if_neg (by linarith),
        if_pos h1]
  · intro l h
    unfold latencyToQuality
    rw [if_neg (by linarith), if_neg (by linarith), if_neg (by linarith),
        if_neg (by linarith)]
  · intro l1 l2 h0 h12
    unfold latencyToQuality
    split_ifs <;> first | decide | linarith

/-- Witness for C4 at the spec's sample points. -/
theorem latencyToQuality_spec_witness :
    latencyToQuality (-1) = "unknown" ∧ latencyToQuality 50 = "excellent" ∧
    latencyToQuality 150 = "good" ∧ latencyToQuality 500 = "fair" ∧
    latencyToQuality 5000 = "poor" ∧
    qualityRank (latencyToQuality 50) ≤ qualityRank (latencyToQuality 5000) :=
  ⟨latencyToQuality_spec.1 (-1) (by decide),
   latencyToQuality_spec.2.1 50 (by decide) (by decide),
   latencyToQuality_spec.2.2.1 150 (by decide) (by decide),
   latencyToQuality_spec.2.2.2.1 500 (by decide) (by decide),
   latencyToQuality_spec.2.2.2.2.1 5000 (by decide),
   latencyToQuality_spec.2.2.2.2.2 50 5000 (by decide) (by decide)⟩

/-- C5: a reported failure unconditionally flips the monitor to offline and
starts recovery checking; a reported non-negative latency stores the sample,
classifies it, marks the internet reachable and stops recovery checking; a
negative latency is ignored, leaving the whole state unchanged. -/
theorem report_effects_spec (q : QualityState) :
    reportNetworkFailure q =
      { q with internetReachable := false, internetQuality := "offline",
               lastPingLatencyMs := -1, isCheckingOfflineRecovery := true } ∧
    (∀ l : ℚ, 0 ≤ l → reportNetworkLatency q l =
      { q with lastPingLatencyMs := l, internetQuality := latencyToQuality l,
               internetReachable := true, isCheckingOfflineRecovery := false }) ∧
    (∀ l : ℚ, l < 0 → reportNetworkLatency q l = q) := by
  refine ⟨rfl, ?_, ?_⟩
  · intro l hl
    unfold reportNetworkLatency
    rw [if_neg (not_lt.mpr hl)]
  · intro l hl
    unfold reportNetworkLatency
    rw [if_pos hl]

/-- Witness for C5 at the initial state with latency samples 50 and -5. -/
theorem report_effects_spec_witness :
    reportNetworkFailure initialQualityState =
      { initialQualityState with
        internetReachable := false,
        internetQuality := "offline",
        lastPingLatencyMs := -1,
        isCheckingOfflineRecovery := true } ∧
    reportNetworkLatency initialQualityState 50 =
      { initialQualityState with
        lastPingLatencyMs := 50,
        internetQuality := latencyToQuality 50,
        internetReachable := true,
        isCheckingOfflineRecovery := false } ∧
    reportNetworkLatency initialQualityState (-5) = initialQualityState :=
  ⟨(report_effects_spec initialQualityState).1,
   (report_effects_spec initialQualityState).2.1 50 (by decide),
   (report_effects_spec initialQualityState).2.2 (-5) (by decide)⟩

/-- C6: a tick taken while the network snapshot is disconnected forces the
offline state, issues no probe, and publishes combined quality "offline",
reachability false and internet state "offline". -/
theorem tick_disconnect_spec (q : QualityState) (net : NetworkState)
    (h : net.isConnected = false) :
    (checkInternetQualityAsync q net).state.lastPingLatencyMs = -1 ∧
    (checkInternetQualityAsync q net).state.internetQuality = "offline" ∧
    (checkInternetQualityAsync q net).state.internetReachable = false ∧
    (checkInternetQualityAsync q net).probe = none ∧
    (checkInternetQualityAsync q net).published =
      some (updateInternetQualityWarmKeys
        (checkInternetQualityAsync q net).state net) ∧
    (updateInternetQualityWarmKeys
      (checkInternetQualityAsync q net).state net).networkQuality = "offline" ∧
    (updateInternetQualityWarmKeys
      (checkInternetQualityAsync q net).state net).internetReachable = false ∧
    (updateInternetQualityWarmKeys
      (checkInternetQualityAsync q net).state net).internetState = "offline" := by
  have hstep : checkInternetQualityAsync q net =
      { state :=
          { q with
            lastPingLatencyMs := -1,
            internetQuality := "offline",
            internetReachable := false },
        probe := none,
        published := some (updateInternetQualityWarmKeys
          { q with
            lastPingLatencyMs := -1,
            internetQuality := "offline",
            internetReachable := false } net) } := by
    simp [checkInternetQualityAsync, h]
  rw [hstep]
  refine ⟨rfl, rfl, rfl, rfl, rfl, ?_, rfl, ?_⟩
  · simp [updateInternetQualityWarmKeys, calculateCombinedQuality]
  · simp [updateInternetQualityWarmKeys]

/-- Witness for C6 at the initial state and a disconnected snapshot. -/
theorem tick_disconnect_spec_witness :
    (checkInternetQualityAsync initialQualityState disconnectedNet).probe = none ∧
    (updateInternetQualityWarmKeys
      (checkInternetQualityAsync initialQualityState disconnectedNet).state
      disconnectedNet).networkQuality = "offline" ∧
    (updateInternetQualityWarmKeys
      (checkInternetQualityAsync initialQualityState disconnectedNet).state
      disconnectedNet).internetState = "offline" :=
  ⟨(tick_disconnect_spec initialQualityState disconnectedNet rfl).2.2.2.1,
   (tick_disconnect_spec initialQualityState disconnectedNet rfl).2.2.2.2.2.1,
   (tick_disconnect_spec initialQualityState disconnectedNet rfl).2.2.2.2.2.2.2⟩

/-- C7: probe endpoint selection is round-robin over the list in effect
(custom when non-empty, else the 4 defaults); with the defaults 5 consecutive
selections wrap around to the first endpoint; every `setPingEndpoints` call
resets the cursor so the next selection is the first element of the list then
in effect. -/
theorem endpoint_rotation_spec :
    (∀ q : QualityState,
        (selectProbeEndpoint q).1 =
          (getPingEndpoints q).getD
            (q.pingEndpointIndex % (getPingEndpoints q).length) "" ∧
        (selectProbeEndpoint q).2 =
          { q with pingEndpointIndex := q.pingEndpointIndex + 1 }) ∧
    (selectRun 5 initialQualityState =
      ["https://www.google.com/generate_204",
       "https://www.apple.com/library/test/success.html",
       "https://clients3.google.com/generate_204",
       "https://captive.apple.com/hotspot-detect.html",
       "https://www.google.com/generate_204"]) ∧
    (∀ (q : QualityState) (endpoints : List String),
        getPingEndpoints (setPingEndpoints q endpoints) =
          (if endpoints.isEmpty then defaultPingEndpoints else endpoints) ∧
        (setPingEndpoints q endpoints).pingEndpointIndex = 0 ∧
        (selectProbeEndpoint (setPingEndpoints q endpoints)).1 =
          (getPingEndpoints (setPingEndpoints q endpoints)).getD 0 "") := by
  refine ⟨fun q => ⟨rfl, rfl⟩, by decide, ?_⟩
  intro q endpoints
  by_cases h : endpoints.isEmpty
  · simp [setPingEndpoints, getPingEndpoints, selectProbeEndpoint, h]
  · simp [setPingEndpoints, getPingEndpoints, selectProbeEndpoint, h]

/-- Unfolding lemma for `findListener` on a cons cell. -/
theorem findListener_cons (k : String) (e : ListenerEntry)
    (rest : List (String × ListenerEntry)) (id : String) :
    findListener ((k, e) :: rest) id =
      if k = id then some e else findListener rest id := rfl

/-- Unfolding lemma for `updateListener` on a cons cell. -/
theorem updateListener_cons (k : String) (e : ListenerEntry)
    (rest : List (String × ListenerEntry)) (id : String)
    (f : ListenerEntry → ListenerEntry) :
    updateListener ((k, e) :: rest) id f =
      (if k = id then (k, f e) else (k, e)) :: updateListener rest id f := rfl

/-- Finding under the updated key returns the updated entry. -/
theorem findListener_updateListener (s : List (String × ListenerEntry))
    (id : String) (f : ListenerEntry → ListenerEntry) :
    findListener (updateListener s id f) id = (findListener s id).map f := by
  induction s with
  | nil => rfl
  | cons p rest ih =>
      obtain ⟨k, e⟩ := p
      by_cases h : k = id
      · rw [updateListener_cons, if_pos h, findListener_cons, if_pos h,
            findListener_cons, if_pos h]
        rfl
      · rw [updateListener_cons, if_neg h, findListener_cons, if_neg h,
            findListener_cons, if_neg h]
        exact ih

/-- Sample throttled listener entry (throttleMs = 100) for witnesses. -/
def sampleThrottledEntry : ListenerEntry :=
  { id := "w",
    config :=
      { warm := some (),
        cold := none,
        combined := none,
        options := some { throttleMs := some 100 } },
    createdAt := 0,
    triggerCount := 0,
    lastTriggered := none,
    isPaused := false,
    nextAllowedTrigger := none,
    hasPendingEvent := false }

/-- Sample registered entry for registry witnesses. -/
def sampleEntryA : ListenerEntry :=
  { id := "a",
    config := { warm := some (), cold := none, combined := none, options := none },
    createdAt := 0,
    triggerCount := 0,
    lastTriggered := none,
    isPaused := false,
    nextAllowedTrigger := none,
    hasPendingEvent := false }

/-- Paused variant of the sample entry. -/
def samplePausedEntry : ListenerEntry :=
  { sampleEntryA with isPaused := true }

/-- Registry holding `sampleEntryA`, already at its capacity of 1. -/
def sampleStateA : SideFxState :=
  { listeners := [("a", sampleEntryA)], maxListeners := 1 }

/-- Empty registry with capacity 10. -/
def emptyState : SideFxState :=
  { listeners := [], maxListeners := 10 }

/-- Config watching warm storage only. -/
def warmConfig : ListenerConfig :=
  { warm := some (), cold := none, combined := none, options := none }

/-- Config naming no watch target at all. -/
def emptyConfig : ListenerConfig :=
  { warm := none, cold := none, combined := none, options := none }

/-- C1: for a listener with a configured positive throttle window T, not
paused, with no active window, the gate fires at t0 (incrementing the trigger
count, setting lastTriggered = t0 and nextAllowedTrigger = t0 + T, clearing
hasPendingEvent), suppresses at t0 + T/2 (setting hasPendingEvent, recording
no trigger), and fires again at t0 + T + 1 (clearing hasPendingEvent). -/
theorem throttle_gate_sequence (e : ListenerEntry) (T t0 : ℚ)
    (hp : e.isPaused = false)
    (hc : configThrottleMs e.config = some T)
    (hn : e.nextAllowedTrigger = none)
    (hT : 0 < T) :
    (canFireCallback e t0).1 = true ∧
    (canFireCallback e t0).2 =
      { e with triggerCount := e.triggerCount + 1,
               lastTriggered := some t0,
               nextAllowedTrigger := some (t0 + T),
               hasPendingEvent := false } ∧
    (canFireCallback (canFireCallback e t0).2 (t0 + T / 2)).1 = false ∧
    (canFireCallback (canFireCallback e t0).2 (t0 + T / 2)).2 =
      { e with triggerCount := e.triggerCount + 1,
               lastTriggered := some t0,
               nextAllowedTrigger := some (t0 + T),
               hasPendingEvent := true } ∧
    (canFireCallback (canFireCallback (canFireCallback e t0).2 (t0 + T / 2)).2
      (t0 + T + 1)).1 = true ∧
    (canFireCallback (canFireCallback (canFireCallback e t0).2 (t0 + T / 2)).2
      (t0 + T + 1)).2.hasPendingEvent = false := by
  have h1 : canFireCallback e t0 =
      (true, { e with triggerCount := e.triggerCount + 1,
                      lastTriggered := some t0,
                      nextAllowedTrigger := some (t0 + T),
                      hasPendingEvent := false }) := by
    simp [canFireCallback, recordFire, hp, hc, hn]
  have hlt : t0 + T / 2 < t0 + T := by linarith
  have h2 : canFireCallback
      { e with triggerCount := e.triggerCount + 1,
               lastTriggered := some t0,
               nextAllowedTrigger := some (t0 + T),
               hasPendingEvent := false } (t0 + T / 2) =
      (false, { e with triggerCount := e.triggerCount + 1,
                       lastTriggered := some t0,
                       nextAllowedTrigger := some (t0 + T),
                       hasPendingEvent := true }) := by
    simp [canFireCallback, hp, hc, hlt]
  have hge : ¬ (t0 + T + 1 < t0 + T) := by linarith
  have h3 : canFireCallback
      { e with triggerCount := e.triggerCount + 1,
               lastTriggered := some t0,
               nextAllowedTrigger := some (t0 + T),
               hasPendingEvent := true } (t0 + T + 1) =
      (true, { e with triggerCount := e.triggerCount + 1 + 1,
                      lastTriggered := some (t0 + T + 1),
                      nextAllowedTrigger := some (t0 + T + 1 + T),
                      hasPendingEvent := false }) := by
    simp [canFireCallback, recordFire, hp, hc, hge]
  refine ⟨?_, ?_, ?_, ?_, ?_, ?_⟩ <;> simp [h1, h2, h3]

/-- Witness for C1 at the sample entry with T = 100, t0 = 0. -/
theorem throttle_gate_sequence_witness :
    0 < (100 : ℚ) ∧
    (canFireCallback sampleThrottledEntry 0).1 = true ∧
    (canFireCallback (canFireCallback sampleThrottledEntry 0).2
      (0 + 100 / 2)).1 = false ∧
    (canFireCallback (canFireCallback (canFireCallback sampleThrottledEntry 0).2
      (0 + 100 / 2)).2 (0 + 100 + 1)).1 = true := by
  have h := throttle_gate_sequence sampleThrottledEntry 100 0 rfl rfl rfl
    (by decide)
  exact ⟨by decide, h.1, h.2.2.1, h.2.2.2.2.1⟩

/-- C2: addListener fails on a duplicate id (leaving the state unchanged),
fails at capacity, fails when no watch target is set, and otherwise succeeds,
inserting an entry with zeroed trigger count and isPaused = false, observable
through hasListener and getListener. -/
theorem addListener_spec (st : SideFxState) (id : String)
    (config : ListenerConfig) (now : ℚ) :
    ((findListener st.listeners id).isSome = true →
      (addListener st id config now).1.success = false ∧
      (addListener st id config now).2 = st) ∧
    (findListener st.listeners id = none →
      st.maxListeners ≤ st.listeners.length →
      (addListener st id config now).1.success = false ∧
      (addListener st id config now).2 = st) ∧
    (findListener st.listeners id = none →
      st.listeners.length < st.maxListeners →
      (config.warm.isNone && config.cold.isNone && config.combined.isNone)
        = true →
      (addListener st id config now).1.success = false ∧
      (addListener st id config now).2 = st) ∧
    (findListener st.listeners id = none →
      st.listeners.length < st.maxListeners →
      (config.warm.isNone && config.cold.isNone && config.combined.isNone)
        = false →
      (addListener st id config now).1.success = true ∧
      hasListener (addListener st id config now).2 id = true ∧
      getListener (addListener st id config now).2 id =
        some { id := id, config := config, createdAt := now,
               triggerCount := 0, lastTriggered := none,
               isPaused := false }) := by
  refine ⟨?_, ?_, ?_, ?_⟩
  · intro h
    simp [addListener, h]
  · intro h1 h2
    simp [addListener, h1, h2]
  · intro h1 h2 h3
    simp [addListener, h1, not_le.mpr h2, h3]
  · intro h1 h2 h3
    simp [addListener, hasListener, getListener, findListener,
      createListenerInfo, h1, not_le.mpr h2, h3]

/-- Witness for C2: duplicate, capacity, invalid-config and success cases at
concrete registries. -/
theorem addListener_spec_witness :
    ((addListener sampleStateA "a" warmConfig 0).1.success = false ∧
      (addListener sampleStateA "a" warmConfig 0).2 = sampleStateA) ∧
    ((addListener sampleStateA "b" warmConfig 0).1.success = false ∧
      (addListener sampleStateA "b" warmConfig 0).2 = sampleStateA) ∧
    ((addListener emptyState "b" emptyConfig 0).1.success = false ∧
      (addListener emptyState "b" emptyConfig 0).2 = emptyState) ∧
    ((addListener emptyState "b" warmConfig 0).1.success = true ∧
      hasListener (addListener emptyState "b" warmConfig 0).2 "b" = true ∧
      getListener (addListener emptyState "b" warmConfig 0).2 "b" =
        some { id := "b", config := warmConfig, createdAt := 0,
               triggerCount := 0, lastTriggered := none,
               isPaused := false }) :=
  ⟨(addListener_spec sampleStateA "a" warmConfig 0).1 (by decide),
   (addListener_spec sampleStateA "b" warmConfig 0).2.1 (by decide) (by decide),
   (addListener_spec emptyState "b" emptyConfig 0).2.2.1 (by decide)
     (by decide) (by decide),
   (addListener_spec emptyState "b" warmConfig 0).2.2.2 (by decide)
     (by decide) (by decide)⟩

/-- C8: evaluating the gate on a paused listener returns false and leaves the
entry untouched; resumeListener only clears isPaused, leaving every other
field of the entry (in particular nextAllowedTrigger) unchanged. -/
theorem pause_resume_frame :
    (∀ (entry : ListenerEntry) (t : ℚ), entry.isPaused = true →
      canFireCallback entry t = (false, entry)) ∧
    (∀ (st : SideFxState) (id : String) (e : ListenerEntry),
      findListener st.listeners id = some e →
      (resumeListener st id).1 = { success := true, message := none } ∧
      findListener (resumeListener st id).2.listeners id =
        some { e with isPaused := false }) := by
  constructor
  · intro entry t h
    simp [canFireCallback, h]
  · intro st id e h
    constructor
    · simp [resumeListener, h]
    · simp [resumeListener, h, findListener_updateListener]

/-- Witness for C8 at a paused sample entry and the sample registry. -/
theorem pause_resume_frame_witness :
    canFireCallback samplePausedEntry 5 = (false, samplePausedEntry) ∧
    (resumeListener sampleStateA "a").1 = { success := true, message := none } ∧
    findListener (resumeListener sampleStateA "a").2.listeners "a" =
      some { sampleEntryA with isPaused := false } :=
  ⟨pause_resume_frame.1 samplePausedEntry 5 (by decide),
   (pause_resume_frame.2 sampleStateA "a" sampleEntryA (by decide)).1,
   (pause_resume_frame.2 sampleStateA "a" sampleEntryA (by decide)).2⟩

/-- C9: the duplicate-id check precedes the capacity and config checks: with
the id already present, addListener returns the duplicate failure whatever
the registry size or config. -/
theorem addListener_duplicate_first (st : SideFxState) (id : String)
    (config : ListenerConfig) (now : ℚ) (e : ListenerEntry)
    (h : findListener st.listeners id = some e) :
    (addListener st id config now).1 =
      { success := false,
        message :=
          some ("Listener with ID \x27" ++ id ++ "\x27 already exists") } ∧
    (addListener st id config now).2 = st := by
  simp [addListener, h]

/-- Witness for C9 at a registry that is simultaneously at capacity, with an
invalid config, and holding the requested id: the duplicate failure wins. -/
theorem addListener_duplicate_first_witness :
    (addListener sampleStateA "a" emptyConfig 0).1 =
      { success := false,
        message :=
          some ("Listener with ID \x27" ++ "a" ++ "\x27 already exists") } ∧
    (addListener sampleStateA "a" emptyConfig 0).2 = sampleStateA :=
  addListener_duplicate_first sampleStateA "a" emptyConfig 0 sampleEntryA
    (by decide)

/-- C10: removeListener, pauseListener and resumeListener on an absent id
each return the not-found failure and leave the registry unchanged. -/
theorem missing_id_operations (st : SideFxState) (id : String)
    (h : findListener st.listeners id = none) :
    removeListener st id =
      ({ success := false,
         message := some ("Listener \x27" ++ id ++ "\x27 not found") }, st) ∧
    pauseListener st id =
      ({ success := false,
         message := some ("Listener \x27" ++ id ++ "\x27 not found") }, st) ∧
    resumeListener st id =
      ({ success := false,
         message := some ("Listener \x27" ++ id ++ "\x27 not found") }, st) := by
  simp [removeListener, pauseListener, resumeListener, h]

/-- Witness for C10 at the empty registry. -/
theorem missing_id_operations_witness :
    removeListener emptyState "x" =
      ({ success := false,
         message := some ("Listener \x27" ++ "x" ++ "\x27 not found") },
       emptyState) ∧
    pauseListener emptyState "x" =
      ({ success := false,
         message := some ("Listener \x27" ++ "x" ++ "\x27 not found") },
       emptyState) ∧
    resumeListener emptyState "x" =
      ({ success := false,
         message := some ("Listener \x27" ++ "x" ++ "\x27 not found") },
       emptyState) :=
  missing_id_operations emptyState "x" rfl

end SideFx
